import Mathlib

/-!
# cts: lock capability types (include/cts/cts.h)

A shallow embedding of the wrapper types of the header: the trait `is_mutex`,
the capability type `cts::mutex`, the movable scoped lock `cts::unique_lock`
and the scoped lock `cts::lock_guard`.

The header delegates every runtime effect to the standard library
(`std::mutex`, `std::unique_lock`, `std::lock_guard`).  Those are not part of
the repository; they are embedded here from their documented contracts
([thread.mutex.requirements], [thread.lock.unique], [thread.lock.guard]) and
the wrappers are then transcribed member by member on top of them.

Members left out: the two timed constructors and `try_lock_for` / `try_lock_until`
(they need a timed mutex, which `cts::mutex` is not, and `try_lock_until` applies a
call operator to the wrapped lock), and `operator=`, whose body applies a call
operator that `std::unique_lock` does not declare and has no return statement.

A mutex is identified by a number (its address), a thread by a number.  The
state of all mutexes is a `World`: who holds each mutex, together with a log of
the calls on the native primitive that changed that (used to count locks and
unlocks).
-/

namespace cts

/-- Identity of a mutex object (its address). -/
abbrev MutexId := Nat

/-- Identity of a thread of the host program. -/
abbrev ThreadId := Nat

/-- A completed call on a native mutex that changed its state. -/
inductive Event where
  | lock (t : ThreadId) (m : MutexId)
  | try_lock (t : ThreadId) (m : MutexId)
  | unlock (t : ThreadId) (m : MutexId)
  deriving DecidableEq, Repr

/-- The state of every mutex of the program: its holder, if any, and the log of
state-changing calls so far. -/
structure World where
  holder : MutexId → Option ThreadId
  log : List Event

/-- No mutex is held and nothing has happened yet. -/
def World.init : World := ⟨fun _ => none, []⟩

/-- Record the holder of `m` and append an event to the log. -/
def World.set (w : World) (m : MutexId) (h : Option ThreadId) (e : Event) : World :=
  ⟨fun x => if x = m then h else w.holder x, w.log ++ [e]⟩

/-- Is the event an unlock of the mutex `m`. -/
def Event.is_unlock_of (m : MutexId) : Event → Bool
  | .unlock _ x => x == m
  | _ => false

/-- Is the event a blocking lock of the mutex `m`. -/
def Event.is_lock_of (m : MutexId) : Event → Bool
  | .lock _ x => x == m
  | _ => false

/-- Number of unlocks of `m` recorded in the world. -/
def World.unlocks (w : World) (m : MutexId) : Nat := w.log.countP (Event.is_unlock_of m)

/-- Number of blocking locks of `m` recorded in the world. -/
def World.locks (w : World) (m : MutexId) : Nat := w.log.countP (Event.is_lock_of m)

/-- Error conditions of `std::system_error` thrown by `std::unique_lock`. -/
inductive Errc where
  | operation_not_permitted
  | resource_deadlock_would_occur
  deriving DecidableEq, Repr

/-- How a call ends: it returns a value in a new world, it throws (the state is
the one before the call), it does not return while the mutex stays held by
another thread, or the call has undefined behaviour. -/
inductive Result (α : Type) where
  | ret (a : α) (w : World)
  | raises (e : Errc)
  | blocks
  | undefined

/-- Continue with `f` after a call that returned. -/
def Result.bind {α β : Type} (r : Result α) (f : α → World → Result β) : Result β :=
  match r with
  | .ret a w => f a w
  | .raises e => .raises e
  | .blocks => .blocks
  | .undefined => .undefined

/-! ## The native primitive: `std::mutex` -/

/-- The call `std::mutex::lock`: acquires a free mutex, blocks while another
thread holds it; undefined when the caller already owns the mutex. -/
def std_mutex.lock (t : ThreadId) (m : MutexId) (w : World) : Result Unit :=
  match w.holder m with
  | none => .ret () (w.set m (some t) (.lock t m))
  | some o => if o = t then .undefined else .blocks

/-- The call `std::mutex::try_lock` on the native primitive: acquires a free
mutex and returns true, returns false at once when another thread holds it;
undefined when the caller already owns the mutex. -/
def std_mutex.try_lock (t : ThreadId) (m : MutexId) (w : World) : Result Bool :=
  match w.holder m with
  | none => .ret true (w.set m (some t) (.try_lock t m))
  | some o => if o = t then .undefined else .ret false w

/-- The call `std::mutex::unlock`: releases a mutex owned by the caller; undefined
otherwise. -/
def std_mutex.unlock (t : ThreadId) (m : MutexId) (w : World) : Result Unit :=
  match w.holder m with
  | some o => if o = t then .ret () (w.set m none (.unlock t m)) else .undefined
  | none => .undefined

/-! ## `cts::mutex` (cts.h:170-187) -/

/-- The member `void lock() { return m_mutex.lock(); }`. -/
def mutex.lock (t : ThreadId) (m : MutexId) (w : World) : Result Unit :=
  std_mutex.lock t m w

/-- The member `bool try_lock() { return m_mutex.try_lock(); }`. -/
def mutex.try_lock (t : ThreadId) (m : MutexId) (w : World) : Result Bool :=
  std_mutex.try_lock t m w

/-- The member `void unlock() { return m_mutex.unlock(); }`. -/
def mutex.unlock (t : ThreadId) (m : MutexId) (w : World) : Result Unit :=
  std_mutex.unlock t m w

/-! ## The trait `is_mutex` (cts.h:157-168) -/

/-- Names of member functions callable with no argument. -/
inductive Member where
  | lock
  | try_lock
  | unlock
  | native_handle
  | other (n : Nat)
  deriving DecidableEq, Repr

/-- A type, as seen by the trait: the member functions it exposes so that
`std::declval<T>().f()` is a well-formed expression. -/
structure TypeDesc where
  members : List Member

/-- Is `decltype(std::declval<T>().f())` well-formed. -/
def TypeDesc.well_formed (T : TypeDesc) (f : Member) : Bool := T.members.contains f

/-- The template arguments of `void_t` in the partial specialisation of
`is_mutex`, in source order. -/
def is_mutex.void_t_args : List Member := [.lock, .unlock, .native_handle]

/-- The value `is_mutex<T>::value`: the partial specialisation (`std::true_type`) is
selected when every argument of `void_t` is well-formed (a substitution failure in
an argument of the alias template discards the specialisation), the primary
template (`std::false_type`) otherwise. -/
def is_mutex (T : TypeDesc) : Bool :=
  if is_mutex.void_t_args.all T.well_formed then true else false

/-- The public members of `cts::mutex`. -/
def mutex.type : TypeDesc := ⟨[.lock, .try_lock, .unlock, .native_handle]⟩

/-- The `static_assert` of `unique_lock<Mutex>` (cts.h:197). -/
def unique_lock.static_assert (T : TypeDesc) : Except String Unit :=
  if is_mutex T then .ok () else .error "Mutex parameter does not meet the requirements"

/-- The `static_assert` of `lock_guard<Mutex>` (cts.h:317). -/
def lock_guard.static_assert (T : TypeDesc) : Except String Unit :=
  if is_mutex T then .ok () else .error "Mutex parameter does not meet the requirements"

/-! ## `std::unique_lock` ([thread.lock.unique]) -/

/-- The two members of `std::unique_lock<M>`: the mutex pointer `pm` and the flag
`owns`. -/
structure std_unique_lock where
  pm : Option MutexId
  owns : Bool
  deriving DecidableEq, Repr

/-- Default constructor: `pm == nullptr`, `owns == false`. -/
def std_unique_lock.ctor_default : std_unique_lock := ⟨none, false⟩

/-- Constructor `unique_lock(m)`: calls `m.lock()`. -/
def std_unique_lock.ctor_lock (t : ThreadId) (m : MutexId) (w : World) :
    Result std_unique_lock :=
  (mutex.lock t m w).bind fun _ w1 => .ret ⟨some m, true⟩ w1

/-- Constructor `unique_lock(m, defer_lock)`: no call on `m`. -/
def std_unique_lock.ctor_defer (m : MutexId) (w : World) : Result std_unique_lock :=
  .ret ⟨some m, false⟩ w

/-- Constructor `unique_lock(m, try_to_lock)`: `owns` is the result of
`m.try_lock()`. -/
def std_unique_lock.ctor_try (t : ThreadId) (m : MutexId) (w : World) :
    Result std_unique_lock :=
  (mutex.try_lock t m w).bind fun b w1 => .ret ⟨some m, b⟩ w1

/-- Constructor `unique_lock(m, adopt_lock)`: no call on `m`, `owns == true`. -/
def std_unique_lock.ctor_adopt (m : MutexId) (w : World) : Result std_unique_lock :=
  .ret ⟨some m, true⟩ w

/-- Move constructor: the new lock takes `pm` and `owns` of `u`; `u` is left with
`pm == nullptr` and `owns == false`.  The pair is (new lock, moved-from lock). -/
def std_unique_lock.ctor_move (u : std_unique_lock) : std_unique_lock × std_unique_lock :=
  (⟨u.pm, u.owns⟩, ⟨none, false⟩)

/-- Destructor: if `owns`, calls `pm->unlock()`. -/
def std_unique_lock.dtor (t : ThreadId) (u : std_unique_lock) (w : World) : Result Unit :=
  if u.owns then
    match u.pm with
    | some m => mutex.unlock t m w
    | none => .undefined
  else .ret () w

/-- The member `lock()`: throws `operation_not_permitted` when `pm` is null,
`resource_deadlock_would_occur` when `owns`; otherwise calls `pm->lock()` and
sets `owns`. -/
def std_unique_lock.lock (t : ThreadId) (u : std_unique_lock) (w : World) :
    Result std_unique_lock :=
  match u.pm with
  | none => .raises .operation_not_permitted
  | some m =>
    if u.owns then .raises .resource_deadlock_would_occur
    else (mutex.lock t m w).bind fun _ w1 => .ret ⟨some m, true⟩ w1

/-- The member `try_lock()`: same error conditions; otherwise `owns` becomes the
result of `pm->try_lock()`, which is returned. -/
def std_unique_lock.try_lock (t : ThreadId) (u : std_unique_lock) (w : World) :
    Result (Bool × std_unique_lock) :=
  match u.pm with
  | none => .raises .operation_not_permitted
  | some m =>
    if u.owns then .raises .resource_deadlock_would_occur
    else (mutex.try_lock t m w).bind fun b w1 => .ret (b, ⟨some m, b⟩) w1

/-- The member `swap(u)`: exchanges the states of the two locks. -/
def std_unique_lock.swap (a b : std_unique_lock) : std_unique_lock × std_unique_lock :=
  (b, a)

/-- The member `release()`: returns the previous `pm`; afterwards `pm == nullptr` and
`owns == false`. -/
def std_unique_lock.release (u : std_unique_lock) : Option MutexId × std_unique_lock :=
  (u.pm, ⟨none, false⟩)

/-- The member `mutex()`: returns `pm`. -/
def std_unique_lock.mutex (u : std_unique_lock) : Option MutexId := u.pm

/-- The member `owns_lock()`: returns `owns`. -/
def std_unique_lock.owns_lock (u : std_unique_lock) : Bool := u.owns

/-! ## `cts::unique_lock` (cts.h:189-307) -/

/-- The data members of `cts::unique_lock<mutex>`: the capability pointer `m_mu`
(initialised to `nullptr`) and the wrapped `std::unique_lock`. -/
structure unique_lock where
  m_mu : Option MutexId
  m_unique_lock : std_unique_lock
  deriving DecidableEq, Repr

/-- The defaulted constructor `unique_lock()` (cts.h:199). -/
def unique_lock.ctor_default : unique_lock := ⟨none, std_unique_lock.ctor_default⟩

/-- The move constructor `unique_lock(unique_lock &&other)` (cts.h:201-206): builds
`m_unique_lock` from `other.m_unique_lock`, then `m_mu = other.m_mu;
other.m_mu = nullptr;`.  The pair is (new lock, `other` afterwards). -/
def unique_lock.ctor_move (other : unique_lock) (w : World) :
    Result (unique_lock × unique_lock) :=
  let r := std_unique_lock.ctor_move other.m_unique_lock
  .ret (⟨other.m_mu, r.1⟩, ⟨none, r.2⟩) w

/-- The blocking constructor `unique_lock(mutex_type &m)` (cts.h:208-212). -/
def unique_lock.ctor_lock (t : ThreadId) (m : MutexId) (w : World) : Result unique_lock :=
  (std_unique_lock.ctor_lock t m w).bind fun u w1 => .ret ⟨some m, u⟩ w1

/-- The deferred constructor `unique_lock(mutex_type &m, std::defer_lock_t)`
(cts.h:214-218). -/
def unique_lock.ctor_defer (m : MutexId) (w : World) : Result unique_lock :=
  (std_unique_lock.ctor_defer m w).bind fun u w1 => .ret ⟨some m, u⟩ w1

/-- The constructor `unique_lock(mutex_type &m, std::try_to_lock_t)` (cts.h:220-224). -/
def unique_lock.ctor_try (t : ThreadId) (m : MutexId) (w : World) : Result unique_lock :=
  (std_unique_lock.ctor_try t m w).bind fun u w1 => .ret ⟨some m, u⟩ w1

/-- The constructor `unique_lock(mutex_type &m, std::adopt_lock_t)` (cts.h:226-230). -/
def unique_lock.ctor_adopt (m : MutexId) (w : World) : Result unique_lock :=
  (std_unique_lock.ctor_adopt m w).bind fun u w1 => .ret ⟨some m, u⟩ w1

/-- The defaulted destructor (cts.h:253): destroys `m_unique_lock`. -/
def unique_lock.dtor (t : ThreadId) (self : unique_lock) (w : World) : Result Unit :=
  std_unique_lock.dtor t self.m_unique_lock w

/-- The member `void lock() { return m_unique_lock.lock(); }` (cts.h:255-258). -/
def unique_lock.lock (t : ThreadId) (self : unique_lock) (w : World) : Result unique_lock :=
  (std_unique_lock.lock t self.m_unique_lock w).bind fun u w1 => .ret ⟨self.m_mu, u⟩ w1

/-- The member `bool try_lock() { return m_unique_lock.try_lock(); }` (cts.h:260-263). -/
def unique_lock.try_lock (t : ThreadId) (self : unique_lock) (w : World) :
    Result (Bool × unique_lock) :=
  (std_unique_lock.try_lock t self.m_unique_lock w).bind fun r w1 =>
    .ret (r.1, ⟨self.m_mu, r.2⟩) w1

/-- The member `void swap(unique_lock& other)` (cts.h:279-282):
`m_unique_lock.swap(other.m_unique_lock)`.  The pair is (this, `other`) afterwards. -/
def unique_lock.swap (self other : unique_lock) (w : World) :
    Result (unique_lock × unique_lock) :=
  let r := std_unique_lock.swap self.m_unique_lock other.m_unique_lock
  .ret (⟨self.m_mu, r.1⟩, ⟨other.m_mu, r.2⟩) w

/-- The member `mutex_type *release()` (cts.h:284-287):
`return m_unique_lock.release();`. -/
def unique_lock.release (self : unique_lock) (w : World) :
    Result (Option MutexId × unique_lock) :=
  let r := std_unique_lock.release self.m_unique_lock
  .ret (r.1, ⟨self.m_mu, r.2⟩) w

/-- The member `mutex_type *mutex() const` (cts.h:289-292). -/
def unique_lock.mutex (self : unique_lock) : Option MutexId := self.m_unique_lock.mutex

/-- The member `bool owns_lock() const` (cts.h:294-297). -/
def unique_lock.owns_lock (self : unique_lock) : Bool := self.m_unique_lock.owns_lock

/-- The conversion `explicit operator bool() const` (cts.h:299-302). -/
def unique_lock.operator_bool (self : unique_lock) : Bool := self.m_unique_lock.owns_lock

/-- Value returned by a member call. -/
inductive Val where
  | unit
  | bool (b : Bool)
  | ptr (p : Option MutexId)
  deriving DecidableEq, Repr

/-- A call on a `unique_lock` object from its owner's code. -/
inductive Op where
  | lock
  | try_lock
  | release
  | mutex
  | owns_lock
  | operator_bool
  | swap (other : unique_lock)
  | moved_from
  deriving DecidableEq, Repr

/-- Run one call on the lock `l`; the result carries the returned value and the
lock afterwards (for `moved_from`, the lock as the source of a
move-construction). -/
def Op.run (t : ThreadId) (op : Op) (l : unique_lock) (w : World) :
    Result (Val × unique_lock) :=
  match op with
  | .lock => (l.lock t w).bind fun l1 w1 => .ret (.unit, l1) w1
  | .try_lock => (l.try_lock t w).bind fun r w1 => .ret (.bool r.1, r.2) w1
  | .release => (l.release w).bind fun r w1 => .ret (.ptr r.1, r.2) w1
  | .mutex => .ret (.ptr l.mutex, l) w
  | .owns_lock => .ret (.bool l.owns_lock, l) w
  | .operator_bool => .ret (.bool l.operator_bool, l) w
  | .swap o => (l.swap o w).bind fun r w1 => .ret (.unit, r.1) w1
  | .moved_from => (unique_lock.ctor_move l w).bind fun r w1 => .ret (.unit, r.2) w1

/-- The calls that neither release nor transfer the lock away from the object. -/
def Op.keeps : Op → Bool
  | .lock => true
  | .try_lock => true
  | .mutex => true
  | .owns_lock => true
  | .operator_bool => true
  | .release => false
  | .swap _ => false
  | .moved_from => false

/-- Run a sequence of calls on one lock.  A call that throws leaves the lock and the
world as they were and the sequence goes on; a call that blocks or is undefined stops
the sequence without a state. -/
def run_ops (t : ThreadId) : List Op → unique_lock → World → Option (unique_lock × World)
  | [], l, w => some (l, w)
  | op :: ops, l, w =>
    match op.run t l w with
    | .ret r w1 => run_ops t ops r.2 w1
    | .raises _ => run_ops t ops l w
    | .blocks => none
    | .undefined => none

/-! ## `cts::lock_guard` (cts.h:309-338) -/

/-- The member of `std::lock_guard<M>`: the mutex it refers to. -/
structure std_lock_guard where
  pm : MutexId
  deriving DecidableEq, Repr

/-- Constructor `lock_guard(m)`: calls `m.lock()`. -/
def std_lock_guard.ctor_lock (t : ThreadId) (m : MutexId) (w : World) : Result std_lock_guard :=
  (mutex.lock t m w).bind fun _ w1 => .ret ⟨m⟩ w1

/-- Constructor `lock_guard(m, adopt_lock)`: no call on `m`. -/
def std_lock_guard.ctor_adopt (m : MutexId) (w : World) : Result std_lock_guard :=
  .ret ⟨m⟩ w

/-- Destructor: calls `pm.unlock()`. -/
def std_lock_guard.dtor (t : ThreadId) (g : std_lock_guard) (w : World) : Result Unit :=
  mutex.unlock t g.pm w

/-- The data members of `cts::lock_guard<mutex>`. -/
structure lock_guard where
  m_mu : Option MutexId
  m_lock_guard : std_lock_guard
  deriving DecidableEq, Repr

/-- The acquiring constructor `lock_guard(mutex_type& m)` (cts.h:319-323). -/
def lock_guard.ctor_lock (t : ThreadId) (m : MutexId) (w : World) : Result lock_guard :=
  (std_lock_guard.ctor_lock t m w).bind fun g w1 => .ret ⟨some m, g⟩ w1

/-- The adopting constructor `lock_guard(mutex_type& m, std::adopt_lock_t)`
(cts.h:325-329). -/
def lock_guard.ctor_adopt (m : MutexId) (w : World) : Result lock_guard :=
  (std_lock_guard.ctor_adopt m w).bind fun g w1 => .ret ⟨some m, g⟩ w1

/-- The defaulted destructor (cts.h:333): destroys `m_lock_guard`. -/
def lock_guard.dtor (t : ThreadId) (self : lock_guard) (w : World) : Result Unit :=
  std_lock_guard.dtor t self.m_lock_guard w

/-- How control leaves a block. -/
inductive Exit where
  | normal
  | early_return
  | thrown
  deriving DecidableEq, Repr

/-- A block `{ cts::lock_guard<> g(m [, std::adopt_lock]); body }` run by thread `t`:
the constructor, then the body, then the destructor of `g`, which runs on every
way of leaving the block. -/
def lock_guard.scope (t : ThreadId) (m : MutexId) (adopt : Bool)
    (body : World → Exit × World) (w : World) : Result Exit :=
  (if adopt then lock_guard.ctor_adopt m w else lock_guard.ctor_lock t m w).bind fun g w1 =>
    (lock_guard.dtor t g (body w1).2).bind fun _ w3 => .ret (body w1).1 w3

/-- The capability pointer `m_mu` names the mutex of the wrapped lock. -/
def unique_lock.in_sync (l : unique_lock) : Prop := l.m_mu = l.mutex

/-! ## Scenarios evaluated in the theorems below -/

/-- The world in which thread 0 holds mutex 1 through a blocking lock. -/
def World.one_held : World := World.init.set 1 (some 0) (.lock 0 1)

/-- A lock object of thread 0 that owns mutex 1. -/
def unique_lock.owning_one : unique_lock := ⟨some 1, ⟨some 1, true⟩⟩

/-- A deferred lock object over mutex 0. -/
def unique_lock.deferred_zero : unique_lock := ⟨some 0, ⟨some 0, false⟩⟩

/-- The deferred lock over mutex 0 after `swap` with the lock that owns mutex 1: the
capability pointer is still mutex 0, the wrapped lock is the one of mutex 1. -/
def unique_lock.swapped_zero : unique_lock := ⟨some 0, ⟨some 1, true⟩⟩

/-! ## Basic facts -/

theorem World.set_holder_same (w : World) (m : MutexId) (h : Option ThreadId) (e : Event) :
    (w.set m h e).holder m = h := by
  simp [World.set]

theorem mutex.lock_free (t : ThreadId) (m : MutexId) (w : World) (h : w.holder m = none) :
    mutex.lock t m w = .ret () (w.set m (some t) (.lock t m)) := by
  simp [mutex.lock, std_mutex.lock, h]

theorem mutex.unlock_held (t : ThreadId) (m : MutexId) (w : World) (h : w.holder m = some t) :
    mutex.unlock t m w = .ret () (w.set m none (.unlock t m)) := by
  simp [mutex.unlock, std_mutex.unlock, h]

theorem unique_lock.lock_owning_raises (t : ThreadId) (l : unique_lock) (w : World) (m : MutexId)
    (hm : l.m_unique_lock.pm = some m) (ho : l.m_unique_lock.owns = true) :
    l.lock t w = .raises .resource_deadlock_would_occur := by
  simp [unique_lock.lock, std_unique_lock.lock, hm, ho, Result.bind]

theorem unique_lock.try_lock_owning_raises (t : ThreadId) (l : unique_lock) (w : World)
    (m : MutexId) (hm : l.m_unique_lock.pm = some m) (ho : l.m_unique_lock.owns = true) :
    l.try_lock t w = .raises .resource_deadlock_would_occur := by
  simp [unique_lock.try_lock, std_unique_lock.try_lock, hm, ho, Result.bind]

/-- A lock that owns its mutex is left as it is, with the world, by every sequence of
calls that neither release nor transfer it. -/
theorem run_ops_keeps (t : ThreadId) (m : MutexId) (l : unique_lock) (w : World)
    (hm : l.m_unique_lock.pm = some m) (ho : l.m_unique_lock.owns = true) :
    ∀ ops : List Op, (∀ op ∈ ops, op.keeps = true) → run_ops t ops l w = some (l, w) := by
  intro ops
  induction ops with
  | nil => intro _; rfl
  | cons op ops ih =>
    intro h
    have hop : op.keeps = true := h op (List.mem_cons_self _ _)
    have ih2 := ih (fun o ho2 => h o (List.mem_cons_of_mem _ ho2))
    cases op with
    | lock =>
      simp [run_ops, Op.run, unique_lock.lock_owning_raises t l w m hm ho, Result.bind, ih2]
    | try_lock =>
      simp [run_ops, Op.run, unique_lock.try_lock_owning_raises t l w m hm ho, Result.bind, ih2]
    | mutex => simp [run_ops, Op.run, ih2]
    | owns_lock => simp [run_ops, Op.run, ih2]
    | operator_bool => simp [run_ops, Op.run, ih2]
    | release => simp [Op.keeps] at hop
    | swap o => simp [Op.keeps] at hop
    | moved_from => simp [Op.keeps] at hop

/-- The constructors, move-construction, `lock()` and `try_lock()` keep the capability
pointer equal to `mutex()`. -/
theorem unique_lock.in_sync_kept (t : ThreadId) (m : MutexId) (w : World) :
    unique_lock.ctor_default.in_sync ∧
    (∀ l w1, unique_lock.ctor_lock t m w = .ret l w1 → l.in_sync) ∧
    (∀ l w1, unique_lock.ctor_defer m w = .ret l w1 → l.in_sync) ∧
    (∀ l w1, unique_lock.ctor_try t m w = .ret l w1 → l.in_sync) ∧
    (∀ l w1, unique_lock.ctor_adopt m w = .ret l w1 → l.in_sync) ∧
    (∀ l : unique_lock, l.in_sync →
      ∀ r w1, unique_lock.ctor_move l w = .ret r w1 → r.1.in_sync ∧ r.2.in_sync) ∧
    (∀ l : unique_lock, l.in_sync → ∀ l2 w1, l.lock t w = .ret l2 w1 → l2.in_sync) ∧
    (∀ l : unique_lock, l.in_sync → ∀ r w1, l.try_lock t w = .ret r w1 → r.2.in_sync) := by
  refine ⟨rfl, ?_, ?_, ?_, ?_, ?_, ?_, ?_⟩
  · intro l w1 h
    simp only [unique_lock.ctor_lock, std_unique_lock.ctor_lock, mutex.lock,
      std_mutex.lock] at h
    cases hx : w.holder m with
    | none =>
      simp [hx, Result.bind] at h
      rw [← h.1]; rfl
    | some o => by_cases hot : o = t <;> simp [hx, hot, Result.bind] at h
  · intro l w1 h
    simp [unique_lock.ctor_defer, std_unique_lock.ctor_defer, Result.bind] at h
    rw [← h.1]; rfl
  · intro l w1 h
    simp only [unique_lock.ctor_try, std_unique_lock.ctor_try, mutex.try_lock,
      std_mutex.try_lock] at h
    cases hx : w.holder m with
    | none =>
      simp [hx, Result.bind] at h
      rw [← h.1]; rfl
    | some o =>
      by_cases hot : o = t
      · simp [hx, hot, Result.bind] at h
      · simp [hx, hot, Result.bind] at h
        rw [← h.1]; rfl
  · intro l w1 h
    simp [unique_lock.ctor_adopt, std_unique_lock.ctor_adopt, Result.bind] at h
    rw [← h.1]; rfl
  · intro l hl r w1 h
    simp [unique_lock.ctor_move, std_unique_lock.ctor_move] at h
    rw [← h.1]
    exact ⟨hl, rfl⟩
  · intro l hl l2 w1 h
    obtain ⟨mu, pm, owns⟩ := l
    simp only [unique_lock.in_sync, unique_lock.mutex, std_unique_lock.mutex] at hl
    subst hl
    cases mu with
    | none => simp [unique_lock.lock, std_unique_lock.lock, Result.bind] at h
    | some x =>
      cases owns with
      | true => simp [unique_lock.lock, std_unique_lock.lock, Result.bind] at h
      | false =>
        simp only [unique_lock.lock, std_unique_lock.lock, mutex.lock, std_mutex.lock] at h
        cases hx : w.holder x with
        | none =>
          simp [hx, Result.bind] at h
          rw [← h.1]; rfl
        | some o => by_cases hot : o = t <;> simp [hx, hot, Result.bind] at h
  · intro l hl r w1 h
    obtain ⟨mu, pm, owns⟩ := l
    simp only [unique_lock.in_sync, unique_lock.mutex, std_unique_lock.mutex] at hl
    subst hl
    cases mu with
    | none => simp [unique_lock.try_lock, std_unique_lock.try_lock, Result.bind] at h
    | some x =>
      cases owns with
      | true => simp [unique_lock.try_lock, std_unique_lock.try_lock, Result.bind] at h
      | false =>
        simp only [unique_lock.try_lock, std_unique_lock.try_lock, mutex.try_lock,
          std_mutex.try_lock] at h
        cases hx : w.holder x with
        | none =>
          simp [hx, Result.bind] at h
          rw [← h.1]; rfl
        | some o =>
          by_cases hot : o = t
          · simp [hx, hot, Result.bind] at h
          · simp [hx, hot, Result.bind] at h
            rw [← h.1]; rfl

/-! ## Claims -/

/-- C1: move-constructing from a lock that owns the mutex `m` (held by the thread)
returns in the same world, so no lock or unlock is performed and `m` stays held;
the new lock owns `m` and the source is left not owning, with a null mutex and a
null capability pointer. -/
theorem unique_lock_move_ctor_transfers (t : ThreadId) (m : MutexId) (src : unique_lock)
    (w : World) (hown : src.owns_lock = true) (hmu : src.mutex = some m)
    (hheld : w.holder m = some t) :
    ∃ dst src2 w2, unique_lock.ctor_move src w = .ret (dst, src2) w2 ∧
      w2 = w ∧ w2.log = w.log ∧ w2.holder m = some t ∧
      dst.owns_lock = true ∧ dst.mutex = some m ∧ dst.m_mu = src.m_mu ∧
      src2.owns_lock = false ∧ src2.mutex = none ∧ src2.m_unique_lock.pm = none ∧
      src2.m_mu = none := by
  refine ⟨⟨src.m_mu, ⟨src.m_unique_lock.pm, src.m_unique_lock.owns⟩⟩,
    ⟨none, ⟨none, false⟩⟩, w, rfl, rfl, rfl, hheld, ?_, ?_, rfl, rfl, rfl, rfl, rfl⟩
  · simpa [unique_lock.owns_lock, std_unique_lock.owns_lock] using hown
  · simpa [unique_lock.mutex, std_unique_lock.mutex] using hmu

/-- Witness for C1: thread 0 moves from its lock that owns mutex 1. -/
theorem unique_lock_move_ctor_transfers_witness :
    ∃ dst src2 w2, unique_lock.ctor_move unique_lock.owning_one World.one_held
        = .ret (dst, src2) w2 ∧
      w2 = World.one_held ∧ w2.log = World.one_held.log ∧ w2.holder 1 = some 0 ∧
      dst.owns_lock = true ∧ dst.mutex = some 1 ∧ dst.m_mu = unique_lock.owning_one.m_mu ∧
      src2.owns_lock = false ∧ src2.mutex = none ∧ src2.m_unique_lock.pm = none ∧
      src2.m_mu = none :=
  unique_lock_move_ctor_transfers 0 1 unique_lock.owning_one World.one_held rfl rfl rfl

/-- C2: on a free mutex `m` the blocking constructor returns a lock with
`owns_lock() == true` and `m` held by the caller; every sequence of later calls
that neither release nor transfer the lock leaves the lock and the world as they
are (so `m` stays held); the destructor of a lock that owns `m` performs exactly one
unlock and frees `m`, and the destructor of a lock that does not own changes
nothing. -/
theorem unique_lock_blocking_ctor_holds (t : ThreadId) (m : MutexId) (w : World)
    (hfree : w.holder m = none) :
    ∃ l w1, unique_lock.ctor_lock t m w = .ret l w1 ∧
      l.owns_lock = true ∧ l.mutex = some m ∧ w1.holder m = some t ∧
      w1.log = w.log ++ [Event.lock t m] ∧
      (∀ ops : List Op, (∀ op ∈ ops, op.keeps = true) → run_ops t ops l w1 = some (l, w1)) ∧
      (∃ w2, l.dtor t w1 = .ret () w2 ∧ w2.holder m = none ∧
        w2.log = w1.log ++ [Event.unlock t m]) ∧
      (∀ (k : unique_lock) (w3 : World), k.owns_lock = true → k.mutex = some m →
        w3.holder m = some t →
        ∃ w4, k.dtor t w3 = .ret () w4 ∧ w4.holder m = none ∧
          w4.log = w3.log ++ [Event.unlock t m]) ∧
      (∀ (k : unique_lock) (w3 : World), k.owns_lock = false → k.dtor t w3 = .ret () w3) := by
  have hd : ∀ (k : unique_lock) (w3 : World), k.owns_lock = true → k.mutex = some m →
      w3.holder m = some t →
      ∃ w4, k.dtor t w3 = .ret () w4 ∧ w4.holder m = none ∧
        w4.log = w3.log ++ [Event.unlock t m] := by
    intro k w3 ho hm hh
    refine ⟨w3.set m none (.unlock t m), ?_, World.set_holder_same _ _ _ _, rfl⟩
    simp only [unique_lock.owns_lock, std_unique_lock.owns_lock] at ho
    simp only [unique_lock.mutex, std_unique_lock.mutex] at hm
    simp [unique_lock.dtor, std_unique_lock.dtor, ho, hm, mutex.unlock_held t m w3 hh]
  refine ⟨⟨some m, ⟨some m, true⟩⟩, w.set m (some t) (.lock t m), ?_, rfl, rfl,
    World.set_holder_same _ _ _ _, rfl, ?_, ?_, hd, ?_⟩
  · simp [unique_lock.ctor_lock, std_unique_lock.ctor_lock, mutex.lock_free t m w hfree,
      Result.bind]
  · exact run_ops_keeps t m _ _ rfl rfl
  · exact hd _ _ rfl rfl (World.set_holder_same _ _ _ _)
  · intro k w3 ho
    simp only [unique_lock.owns_lock, std_unique_lock.owns_lock] at ho
    simp [unique_lock.dtor, std_unique_lock.dtor, ho]

/-- Witness for C2: thread 0 constructs a blocking lock on the free mutex 1. -/
theorem unique_lock_blocking_ctor_holds_witness :
    World.init.holder 1 = none ∧
    ∃ l w1, unique_lock.ctor_lock 0 1 World.init = .ret l w1 ∧ l.owns_lock = true ∧
      w1.holder 1 = some 0 ∧
      run_ops 0 [Op.lock, Op.try_lock, Op.mutex, Op.owns_lock] l w1 = some (l, w1) := by
  refine ⟨rfl, ?_⟩
  obtain ⟨l, w1, h1, h2, _, h4, _, h6, _⟩ := unique_lock_blocking_ctor_holds 0 1 World.init rfl
  exact ⟨l, w1, h1, h2, h4, h6 _ (by decide)⟩

/-- C3, as stated, fails: thread 0 holds mutex 1 through the lock `owning_one` and
builds a deferred lock over mutex 0; `swap`, which is no lock or try_lock call,
leaves the deferred lock with `owns_lock() == true`. -/
theorem unique_lock_deferred_swap_counterexample :
    unique_lock.ctor_defer 0 World.one_held
        = .ret unique_lock.deferred_zero World.one_held ∧
      unique_lock.deferred_zero.owns_lock = false ∧
      Op.run 0 (.swap unique_lock.owning_one) unique_lock.deferred_zero World.one_held
        = .ret (.unit, ⟨some 0, ⟨some 1, true⟩⟩) World.one_held ∧
      unique_lock.owns_lock ⟨some 0, ⟨some 1, true⟩⟩ = true :=
  ⟨rfl, rfl, rfl, rfl⟩

/-- C3, amended: the deferred constructor returns in the same world a lock with
`owns_lock() == false` and `mutex() == m`; a lock with `owns_lock() == false` still
has it after every returning call other than `lock()`, a `try_lock()` that returned
true, and a `swap` with a lock that owns; and `lock()` on the deferred lock over a free `m` returns with `owns_lock() == true` and
`m` held by the caller. -/
theorem unique_lock_deferred_owns_false (t : ThreadId) (m : MutexId) (w : World) :
    (∃ l, unique_lock.ctor_defer m w = .ret l w ∧ l.owns_lock = false ∧ l.mutex = some m ∧
      (w.holder m = none →
        ∃ l2 w2, l.lock t w = .ret l2 w2 ∧ l2.owns_lock = true ∧ l2.mutex = some m ∧
          w2.holder m = some t)) ∧
    (∀ (l : unique_lock) (op : Op) (w0 : World) (r : Val × unique_lock) (w1 : World),
      l.owns_lock = false → op.run t l w0 = .ret r w1 →
      op ≠ .lock → (op = .try_lock → r.1 = .bool false) →
      (∀ o, op = .swap o → o.owns_lock = false) → r.2.owns_lock = false) := by
  constructor
  · refine ⟨⟨some m, ⟨some m, false⟩⟩, rfl, rfl, rfl, ?_⟩
    intro hfree
    refine ⟨⟨some m, ⟨some m, true⟩⟩, w.set m (some t) (.lock t m), ?_, rfl, rfl,
      World.set_holder_same _ _ _ _⟩
    simp [unique_lock.lock, std_unique_lock.lock, mutex.lock_free t m w hfree, Result.bind]
  · intro l op w0 r w1 ho hrun hnl htl hsw
    obtain ⟨mu, pm, owns⟩ := l
    simp only [unique_lock.owns_lock, std_unique_lock.owns_lock] at ho
    subst ho
    cases op with
    | lock => exact absurd rfl hnl
    | try_lock =>
      have hb := htl rfl
      cases pm with
      | none =>
        simp [Op.run, unique_lock.try_lock, std_unique_lock.try_lock, Result.bind] at hrun
      | some x =>
        simp only [Op.run, unique_lock.try_lock, std_unique_lock.try_lock, mutex.try_lock,
          std_mutex.try_lock] at hrun
        cases hx : w0.holder x with
        | none =>
          simp [hx, Result.bind] at hrun
          obtain ⟨h1, _⟩ := hrun
          rw [← h1] at hb
          simp at hb
        | some o =>
          by_cases hot : o = t
          · simp [hx, hot, Result.bind] at hrun
          · simp [hx, hot, Result.bind] at hrun
            obtain ⟨h1, _⟩ := hrun
            rw [← h1]
            rfl
    | release =>
      simp [Op.run, unique_lock.release, std_unique_lock.release, Result.bind] at hrun
      obtain ⟨h1, _⟩ := hrun
      rw [← h1]; rfl
    | mutex =>
      simp [Op.run] at hrun
      obtain ⟨h1, _⟩ := hrun
      rw [← h1]; rfl
    | owns_lock =>
      simp [Op.run] at hrun
      obtain ⟨h1, _⟩ := hrun
      rw [← h1]; rfl
    | operator_bool =>
      simp [Op.run] at hrun
      obtain ⟨h1, _⟩ := hrun
      rw [← h1]; rfl
    | swap o =>
      have hoo := hsw o rfl
      simp [Op.run, unique_lock.swap, std_unique_lock.swap, Result.bind] at hrun
      obtain ⟨h1, _⟩ := hrun
      rw [← h1]
      simpa [unique_lock.owns_lock, std_unique_lock.owns_lock] using hoo
    | moved_from =>
      simp [Op.run, unique_lock.ctor_move, std_unique_lock.ctor_move, Result.bind] at hrun
      obtain ⟨h1, _⟩ := hrun
      rw [← h1]; rfl

/-- Witness for C3: the deferred lock over mutex 0 in the initial world, locked by
thread 0, and a `release()` call on it. -/
theorem unique_lock_deferred_owns_false_witness :
    (∃ l, unique_lock.ctor_defer 0 World.init = .ret l World.init ∧ l.owns_lock = false ∧
      ∃ l2 w2, l.lock 0 World.init = .ret l2 w2 ∧ l2.owns_lock = true ∧
        w2.holder 0 = some 0) ∧
    unique_lock.owns_lock ⟨some 0, ⟨none, false⟩⟩ = false := by
  have h := unique_lock_deferred_owns_false 0 0 World.init
  refine ⟨?_, ?_⟩
  · obtain ⟨l, h1, h2, _, h4⟩ := h.1
    obtain ⟨l2, w2, h5, h6, _, h8⟩ := h4 rfl
    exact ⟨l, h1, h2, l2, w2, h5, h6, h8⟩
  · exact h.2 unique_lock.deferred_zero .release World.init
      (.ptr (some 0), ⟨some 0, ⟨none, false⟩⟩) World.init rfl rfl (by decide)
      (by intro h0; cases h0) (by intro o h0; cases h0)

/-- C4: a block guarded by a `lock_guard` over `m` (acquiring constructor on a free
`m`, or adopting constructor on an `m` held by the caller), whose body keeps `m`
held and performs no lock or unlock of `m` itself, ends for every exit of the body
with exactly one unlock of `m`, appended by the destructor, and `m` free; the
acquiring constructor performs exactly one lock of `m` and the adopting one none. -/
theorem lock_guard_releases_once (t : ThreadId) (m : MutexId) (adopt : Bool)
    (body : World → Exit × World) (w : World)
    (hpre : w.holder m = if adopt then some t else none)
    (hbody : ∀ w0 : World, w0.holder m = some t →
      (body w0).2.holder m = some t ∧ (body w0).2.unlocks m = w0.unlocks m ∧
        (body w0).2.locks m = w0.locks m) :
    ∃ g w1 w3,
      (if adopt then lock_guard.ctor_adopt m w else lock_guard.ctor_lock t m w) = .ret g w1 ∧
      w1.holder m = some t ∧
      w1.log = (if adopt then w.log else w.log ++ [Event.lock t m]) ∧
      lock_guard.scope t m adopt body w = .ret (body w1).1 w3 ∧
      w3.log = (body w1).2.log ++ [Event.unlock t m] ∧
      w3.holder m = none ∧
      w3.unlocks m = w.unlocks m + 1 ∧
      w3.locks m = w.locks m + (if adopt then 0 else 1) := by
  cases adopt with
  | true =>
    simp only [if_true] at hpre
    obtain ⟨hb1, hb2, hb3⟩ := hbody w hpre
    refine ⟨⟨some m, ⟨m⟩⟩, w, (body w).2.set m none (.unlock t m), rfl, hpre, rfl, ?_, rfl,
      World.set_holder_same _ _ _ _, ?_, ?_⟩
    · simp [lock_guard.scope, lock_guard.ctor_adopt, std_lock_guard.ctor_adopt, Result.bind,
        lock_guard.dtor, std_lock_guard.dtor, mutex.unlock_held t m _ hb1]
    · simp [World.unlocks, World.set, List.countP_append, Event.is_unlock_of] at hb2 ⊢
      exact hb2
    · simp [World.locks, World.set, List.countP_append, Event.is_lock_of] at hb3 ⊢
      exact hb3
  | false =>
    simp only [Bool.false_eq_true, if_false] at hpre
    have hh : (w.set m (some t) (.lock t m)).holder m = some t := World.set_holder_same _ _ _ _
    obtain ⟨hb1, hb2, hb3⟩ := hbody _ hh
    refine ⟨⟨some m, ⟨m⟩⟩, w.set m (some t) (.lock t m),
      (body (w.set m (some t) (.lock t m))).2.set m none (.unlock t m), ?_, hh, ?_, ?_, rfl,
      World.set_holder_same _ _ _ _, ?_, ?_⟩
    · simp [lock_guard.ctor_lock, std_lock_guard.ctor_lock, mutex.lock_free t m w hpre,
        Result.bind]
    · simp [World.set]
    · simp [lock_guard.scope, lock_guard.ctor_lock, std_lock_guard.ctor_lock,
        mutex.lock_free t m w hpre, Result.bind, lock_guard.dtor, std_lock_guard.dtor,
        mutex.unlock_held t m _ hb1]
    · simp [World.unlocks, World.set, List.countP_append, Event.is_unlock_of] at hb2 ⊢
      exact hb2
    · simp [World.locks, World.set, List.countP_append, Event.is_lock_of] at hb3 ⊢
      exact hb3

/-- Witness for C4: thread 0 guards mutex 1 with the acquiring constructor and the
body leaves the block by a thrown condition. -/
theorem lock_guard_releases_once_witness :
    World.init.holder 1 = none ∧
    ∃ w3, lock_guard.scope 0 1 false (fun w0 => (Exit.thrown, w0)) World.init
        = .ret Exit.thrown w3 ∧
      w3.holder 1 = none ∧ w3.unlocks 1 = 1 ∧ w3.locks 1 = 1 := by
  refine ⟨rfl, ?_⟩
  obtain ⟨_, w1, w3, _, _, _, h4, _, h6, h7, h8⟩ :=
    lock_guard_releases_once 0 1 false (fun w0 => (Exit.thrown, w0)) World.init rfl
      (fun w0 h0 => ⟨h0, rfl, rfl⟩)
  exact ⟨w3, h4, h6, by simpa [World.unlocks, World.init] using h7,
    by simpa [World.locks, World.init] using h8⟩

/-- On a lock whose `mutex()` is `m`, `release()` returns `m` in the same world (the
locked state of `m` is unchanged) and leaves `owns_lock() == false`,
`operator bool == false` and `mutex() == nullptr`, so that the destructor changes
nothing; the returned pointer is the capability pointer `m_mu` when the two agreed
before the call; `owns_lock()` and `operator bool` agree on every lock. -/
theorem unique_lock.release_relinquishes (t : ThreadId) (m : MutexId) (l : unique_lock)
    (w : World) (hm : l.mutex = some m) :
    ∃ p l2 w2, l.release w = .ret (p, l2) w2 ∧
      p = some m ∧ p = l.mutex ∧ (l.in_sync → p = l.m_mu) ∧
      w2 = w ∧ w2.holder m = w.holder m ∧ w2.log = w.log ∧
      l2.owns_lock = false ∧ l2.operator_bool = false ∧ l2.mutex = none ∧
      l2.dtor t w2 = .ret () w2 ∧
      (∀ k : unique_lock, k.owns_lock = k.operator_bool) := by
  refine ⟨some m, ⟨l.m_mu, ⟨none, false⟩⟩, w, ?_, rfl, hm.symm, ?_, rfl, rfl, rfl, rfl,
    rfl, rfl, rfl, fun _ => rfl⟩
  · simp only [unique_lock.mutex, std_unique_lock.mutex] at hm
    simp [unique_lock.release, std_unique_lock.release, hm]
  · intro hs
    rw [hs, hm]

/-- C5, evaluated: thread 0 builds `b` over mutex 1 (blocking) and `a` over mutex 0
(deferred) and calls `a.swap(b)`; `a` is then associated with mutex 1 (`mutex()` is
mutex 1 and it owns the lock) while its capability pointer `m_mu` is mutex 0, and
`a.release()` returns mutex 1, which is not the value of `m_mu`. -/
theorem unique_lock_release_not_m_mu :
    unique_lock.ctor_lock 0 1 World.init = .ret unique_lock.owning_one World.one_held ∧
      unique_lock.ctor_defer 0 World.one_held
        = .ret unique_lock.deferred_zero World.one_held ∧
      unique_lock.swap unique_lock.deferred_zero unique_lock.owning_one World.one_held
        = .ret (unique_lock.swapped_zero, ⟨some 1, ⟨some 0, false⟩⟩) World.one_held ∧
      unique_lock.swapped_zero.mutex = some 1 ∧
      unique_lock.swapped_zero.owns_lock = true ∧
      unique_lock.swapped_zero.m_mu = some 0 ∧
      unique_lock.release unique_lock.swapped_zero World.one_held
        = .ret (some 1, ⟨some 0, ⟨none, false⟩⟩) World.one_held ∧
      (some 1 : Option MutexId) ≠ unique_lock.swapped_zero.m_mu :=
  ⟨rfl, rfl, rfl, rfl, rfl, rfl, rfl, by decide⟩

/-- C6: `try_lock()` by thread `b` on a mutex held by another thread `a` returns false
in the same world; on a free mutex it returns true and leaves the mutex held by `b`;
and in the scenario where `a` locks the free mutex, `b` fails to `try_lock`, and `a`
unlocks, the next `try_lock` of `b` returns true with the mutex held by `b`. -/
theorem mutex_try_lock_contract (m : MutexId) (a b : ThreadId) (w : World) (hab : a ≠ b) :
    (w.holder m = some a → mutex.try_lock b m w = .ret false w) ∧
    (w.holder m = none →
      ∃ w1, mutex.try_lock b m w = .ret true w1 ∧ w1.holder m = some b) ∧
    (w.holder m = none →
      ∃ w1 w2 w3, mutex.lock a m w = .ret () w1 ∧ w1.holder m = some a ∧
        mutex.try_lock b m w1 = .ret false w1 ∧
        mutex.unlock a m w1 = .ret () w2 ∧ w2.holder m = none ∧
        mutex.try_lock b m w2 = .ret true w3 ∧ w3.holder m = some b) := by
  have hfree : ∀ w0 : World, w0.holder m = none →
      mutex.try_lock b m w0 = .ret true (w0.set m (some b) (.try_lock b m)) := by
    intro w0 h0
    simp [mutex.try_lock, std_mutex.try_lock, h0]
  have hbusy : ∀ w0 : World, w0.holder m = some a → mutex.try_lock b m w0 = .ret false w0 := by
    intro w0 h0
    simp [mutex.try_lock, std_mutex.try_lock, h0, hab]
  refine ⟨hbusy w, fun h => ⟨_, hfree w h, World.set_holder_same _ _ _ _⟩, fun h => ?_⟩
  have h1 : (w.set m (some a) (.lock a m)).holder m = some a := World.set_holder_same _ _ _ _
  have h2 : ((w.set m (some a) (.lock a m)).set m none (.unlock a m)).holder m = none :=
    World.set_holder_same _ _ _ _
  exact ⟨_, _, _, mutex.lock_free a m w h, h1, hbusy _ h1, mutex.unlock_held a m _ h1, h2,
    hfree _ h2, World.set_holder_same _ _ _ _⟩

/-- Witness for C6: threads 0 (holder) and 1 on mutex 1. -/
theorem mutex_try_lock_contract_witness :
    (0 : ThreadId) ≠ 1 ∧ World.one_held.holder 1 = some 0 ∧
      mutex.try_lock 1 1 World.one_held = .ret false World.one_held :=
  ⟨by decide, rfl, (mutex_try_lock_contract 1 0 1 World.one_held (by decide)).1 rfl⟩

/-- C7: `is_mutex<T>::value` is true exactly when `T` exposes `lock()`, `unlock()` and
`native_handle()`; `try_lock` is not required (a type with only the three is
accepted); the `static_assert` of both wrappers rejects every `T` missing one of the
three and accepts `cts::mutex`. -/
theorem is_mutex_iff_three_members (T : TypeDesc) :
    (is_mutex T = true ↔
      (Member.lock ∈ T.members ∧ Member.unlock ∈ T.members ∧
        Member.native_handle ∈ T.members)) ∧
    is_mutex ⟨[.lock, .unlock, .native_handle]⟩ = true ∧
    ((Member.lock ∉ T.members ∨ Member.unlock ∉ T.members ∨
        Member.native_handle ∉ T.members) →
      unique_lock.static_assert T = .error "Mutex parameter does not meet the requirements" ∧
      lock_guard.static_assert T = .error "Mutex parameter does not meet the requirements") ∧
    ((Member.lock ∈ T.members ∧ Member.unlock ∈ T.members ∧
        Member.native_handle ∈ T.members) →
      unique_lock.static_assert T = .ok () ∧ lock_guard.static_assert T = .ok ()) ∧
    unique_lock.static_assert mutex.type = .ok () ∧
    lock_guard.static_assert mutex.type = .ok () := by
  have hiff : is_mutex T = true ↔
      (Member.lock ∈ T.members ∧ Member.unlock ∈ T.members ∧
        Member.native_handle ∈ T.members) := by
    simp [is_mutex, is_mutex.void_t_args, TypeDesc.well_formed]
  refine ⟨hiff, by decide, ?_, ?_, rfl, rfl⟩
  · intro h
    have hf : is_mutex T = false := by
      cases hv : is_mutex T with
      | false => rfl
      | true =>
        obtain ⟨h1, h2, h3⟩ := hiff.mp hv
        rcases h with h | h | h
        · exact absurd h1 h
        · exact absurd h2 h
        · exact absurd h3 h
    simp [unique_lock.static_assert, lock_guard.static_assert, hf]
  · intro h
    have ht : is_mutex T = true := hiff.mpr h
    simp [unique_lock.static_assert, lock_guard.static_assert, ht]

/-- Witness for C7: a type exposing only `lock` and `unlock` is rejected by both
wrappers. -/
theorem is_mutex_iff_three_members_witness :
    is_mutex ⟨[.lock, .unlock]⟩ = false ∧
    unique_lock.static_assert ⟨[.lock, .unlock]⟩
      = .error "Mutex parameter does not meet the requirements" ∧
    lock_guard.static_assert ⟨[.lock, .unlock]⟩
      = .error "Mutex parameter does not meet the requirements" :=
  ⟨by decide,
    (is_mutex_iff_three_members ⟨[.lock, .unlock]⟩).2.2.1 (Or.inr (Or.inr (by decide)))⟩

/-- C8, as stated, fails: `lock()` and `try_lock()` throw `std::system_error` on a lock
built by the default constructor (no mutex) and on a lock that already owns its
mutex. -/
theorem unique_lock_lock_raises_counterexample :
    unique_lock.lock 0 unique_lock.ctor_default World.init
        = .raises .operation_not_permitted ∧
      unique_lock.try_lock 0 unique_lock.ctor_default World.init
        = .raises .operation_not_permitted ∧
      unique_lock.ctor_lock 0 1 World.init = .ret unique_lock.owning_one World.one_held ∧
      unique_lock.lock 0 unique_lock.owning_one World.one_held
        = .raises .resource_deadlock_would_occur ∧
      unique_lock.try_lock 0 unique_lock.owning_one World.one_held
        = .raises .resource_deadlock_would_occur :=
  ⟨rfl, rfl, rfl, rfl, rfl⟩

/-- C8, amended: `lock()` and `try_lock()` throw exactly when the lock has no mutex or
already owns its mutex.  On a lock that has a mutex `m` and does not own it, with `m`
not already held by the calling thread, `try_lock()` returns, its result is the new
`owns_lock()`, and it is false exactly when another thread holds `m`; `lock()` either
blocks (another thread holds `m`) or returns with the lock owned and `m` held by the
caller. -/
theorem unique_lock_lock_error_paths (t : ThreadId) (l : unique_lock) (w : World) :
    ((∃ e, l.lock t w = .raises e) ↔ (l.mutex = none ∨ l.owns_lock = true)) ∧
    ((∃ e, l.try_lock t w = .raises e) ↔ (l.mutex = none ∨ l.owns_lock = true)) ∧
    (∀ m, l.mutex = some m → l.owns_lock = false → w.holder m ≠ some t →
      (∃ b l2 w2, l.try_lock t w = .ret (b, l2) w2 ∧ l2.owns_lock = b ∧
        (b = false ↔ ∃ o, w.holder m = some o)) ∧
      ((l.lock t w = .blocks ∧ ∃ o, w.holder m = some o) ∨
        (∃ l2 w2, l.lock t w = .ret l2 w2 ∧ l2.owns_lock = true ∧
          w2.holder m = some t))) := by
  obtain ⟨mu, pm, owns⟩ := l
  simp only [unique_lock.mutex, std_unique_lock.mutex, unique_lock.owns_lock,
    std_unique_lock.owns_lock]
  refine ⟨?_, ?_, ?_⟩
  · cases pm with
    | none => simp [unique_lock.lock, std_unique_lock.lock, Result.bind]
    | some x =>
      cases owns with
      | true => simp [unique_lock.lock, std_unique_lock.lock, Result.bind]
      | false =>
        cases hx : w.holder x with
        | none =>
          simp [unique_lock.lock, std_unique_lock.lock, Result.bind, mutex.lock,
            std_mutex.lock, hx]
        | some o =>
          by_cases hot : o = t <;>
            simp [unique_lock.lock, std_unique_lock.lock, Result.bind, mutex.lock,
              std_mutex.lock, hx, hot]
  · cases pm with
    | none => simp [unique_lock.try_lock, std_unique_lock.try_lock, Result.bind]
    | some x =>
      cases owns with
      | true => simp [unique_lock.try_lock, std_unique_lock.try_lock, Result.bind]
      | false =>
        cases hx : w.holder x with
        | none =>
          simp [unique_lock.try_lock, std_unique_lock.try_lock, Result.bind, mutex.try_lock,
            std_mutex.try_lock, hx]
        | some o =>
          by_cases hot : o = t <;>
            simp [unique_lock.try_lock, std_unique_lock.try_lock, Result.bind,
              mutex.try_lock, std_mutex.try_lock, hx, hot]
  · intro m hm ho hne
    subst hm ho
    cases hx : w.holder m with
    | none =>
      refine ⟨⟨true, ⟨mu, ⟨some m, true⟩⟩, w.set m (some t) (.try_lock t m), ?_, rfl, ?_⟩,
        Or.inr ⟨⟨mu, ⟨some m, true⟩⟩, w.set m (some t) (.lock t m), ?_, rfl,
          World.set_holder_same _ _ _ _⟩⟩
      · simp [unique_lock.try_lock, std_unique_lock.try_lock, Result.bind, mutex.try_lock,
          std_mutex.try_lock, hx]
      · simp
      · simp [unique_lock.lock, std_unique_lock.lock, Result.bind, mutex.lock,
          std_mutex.lock, hx]
    | some o =>
      have hot : o ≠ t := fun h => hne (by rw [hx, h])
      refine ⟨⟨false, ⟨mu, ⟨some m, false⟩⟩, w, ?_, rfl, ?_⟩, Or.inl ⟨?_, o, rfl⟩⟩
      · simp [unique_lock.try_lock, std_unique_lock.try_lock, Result.bind, mutex.try_lock,
          std_mutex.try_lock, hx, hot]
      · simp
      · simp [unique_lock.lock, std_unique_lock.lock, Result.bind, mutex.lock,
          std_mutex.lock, hx, hot]

/-- Witness for C8: thread 1 calls `try_lock()` on a deferred lock over mutex 1 while
thread 0 holds it, and gets false. -/
theorem unique_lock_lock_error_paths_witness :
    ∃ l2 w2, unique_lock.try_lock 1 ⟨some 1, ⟨some 1, false⟩⟩ World.one_held
        = .ret (false, l2) w2 ∧ l2.owns_lock = false := by
  obtain ⟨⟨b, l2, w2, h1, h2, h3⟩, _⟩ :=
    (unique_lock_lock_error_paths 1 ⟨some 1, ⟨some 1, false⟩⟩ World.one_held).2.2 1 rfl rfl
      (by decide)
  have hb : b = false := h3.mpr ⟨0, rfl⟩
  subst hb
  exact ⟨l2, w2, h1, h2⟩

/-- C10, evaluated: after `release()` on a lock built by the blocking constructor the
capability pointer `m_mu` is still the mutex while `mutex()` is null; after `swap`
between locks over different mutexes `m_mu` and `mutex()` name different mutexes. -/
theorem unique_lock_m_mu_diverges :
    unique_lock.ctor_lock 0 1 World.init = .ret unique_lock.owning_one World.one_held ∧
      unique_lock.release unique_lock.owning_one World.one_held
        = .ret (some 1, ⟨some 1, ⟨none, false⟩⟩) World.one_held ∧
      unique_lock.m_mu ⟨some 1, ⟨none, false⟩⟩ = some 1 ∧
      unique_lock.mutex ⟨some 1, ⟨none, false⟩⟩ = none ∧
      unique_lock.ctor_defer 0 World.one_held
        = .ret unique_lock.deferred_zero World.one_held ∧
      unique_lock.swap unique_lock.deferred_zero unique_lock.owning_one World.one_held
        = .ret (⟨some 0, ⟨some 1, true⟩⟩, ⟨some 1, ⟨some 0, false⟩⟩) World.one_held ∧
      unique_lock.m_mu ⟨some 0, ⟨some 1, true⟩⟩ = some 0 ∧
      unique_lock.mutex ⟨some 0, ⟨some 1, true⟩⟩ = some 1 :=
  ⟨rfl, rfl, rfl, rfl, rfl, rfl, rfl, rfl⟩

end cts
